import Mathlib

/-!
Verification of the wurth-telesto radio driver protocol engine.

The definitions below are a shallow embedding of the Rust sources:
bytes are modelled as `Nat` (all wire values are < 256 and only equality,
XOR and comparisons occur, so no modular reduction is needed), byte
buffers as `List Nat`, and the serial read half as a `List (Option Nat)`
where `some b` is a successfully read byte and `none` is a transport read
that returned an error. Fallible / panicking paths return `Option`
(`none` models a panic or a failed assertion).
-/

namespace Telesto

/-- Start byte (src/src/command.rs line 2). -/
def START : Nat := 0x02

/-- Maximum payload length (src/src/command.rs line 5). -/
def MAX_PAYLOAD_LEN : Nat := 224

/-- Header length (src/src/command.rs line 6). -/
def HEADER_LEN : Nat := 3

/-- Checksum length (src/src/command.rs line 7). -/
def CHECKSUM_LEN : Nat := 1

/-- Request command (src/src/command.rs lines 21-50). -/
inductive Request where
  | SendData
  | SendDataEx
  | SetMode
  | Reset
  | SetChannel
  | SetDestinationNetworkId
  | SetDestinationAddress
  | SetUserSetting
  | GetUserSetting
  | Rssi
  | Shutdown
  | Standby
  | TransmitPower
  | FactoryReset
deriving DecidableEq, Repr

/-- The discriminant of each `Request` variant (`kind as u8` in the source). -/
def Request.code : Request → Nat
  | .SendData => 0x00
  | .SendDataEx => 0x01
  | .SetMode => 0x04
  | .Reset => 0x05
  | .SetChannel => 0x06
  | .SetDestinationNetworkId => 0x07
  | .SetDestinationAddress => 0x08
  | .SetUserSetting => 0x09
  | .GetUserSetting => 0x0A
  | .Rssi => 0x0D
  | .Shutdown => 0x0E
  | .Standby => 0x0F
  | .TransmitPower => 0x11
  | .FactoryReset => 0x12

/-- Command response (src/src/command.rs lines 110-137). -/
inductive Response where
  | SendData
  | SetMode
  | Reset
  | SetChannel
  | SetDestinationNetworkId
  | SetDestinationAddress
  | SetUserSetting
  | GetUserSetting
  | Rssi
  | Shutdown
  | Standby
  | TransmitPower
  | FactoryReset
deriving DecidableEq, Repr, Fintype

/-- The discriminant of each `Response` variant (`Self::X as u8` in the source). -/
def Response.code : Response → Nat
  | .SendData => 0x40
  | .SetMode => 0x44
  | .Reset => 0x45
  | .SetChannel => 0x46
  | .SetDestinationNetworkId => 0x47
  | .SetDestinationAddress => 0x48
  | .SetUserSetting => 0x49
  | .GetUserSetting => 0x4A
  | .Rssi => 0x4D
  | .Shutdown => 0x4E
  | .Standby => 0x4F
  | .TransmitPower => 0x51
  | .FactoryReset => 0x52

/-- `Response::try_from_raw` (src/src/command.rs lines 140-158): the guard
chain is reproduced arm by arm, including the source's duplicated
`SendData` arm (line 146), which is unreachable but present. -/
def Response.tryFromRaw (raw : Nat) : Option Response :=
  if raw = Response.SendData.code then some .SendData
  else if raw = Response.SetMode.code then some .SetMode
  else if raw = Response.Reset.code then some .Reset
  else if raw = Response.SetChannel.code then some .SetChannel
  else if raw = Response.SendData.code then some .SendData
  else if raw = Response.SetDestinationNetworkId.code then some .SetDestinationNetworkId
  else if raw = Response.SetDestinationAddress.code then some .SetDestinationAddress
  else if raw = Response.SetUserSetting.code then some .SetUserSetting
  else if raw = Response.GetUserSetting.code then some .GetUserSetting
  else if raw = Response.Rssi.code then some .Rssi
  else if raw = Response.Shutdown.code then some .Shutdown
  else if raw = Response.Standby.code then some .Standby
  else if raw = Response.TransmitPower.code then some .TransmitPower
  else if raw = Response.FactoryReset.code then some .FactoryReset
  else none

/-- Event (src/src/command.rs lines 162-173). -/
inductive Event where
  | DataRepeat
  | DataReceived
  | Reset
  | Wakeup
  | PacketTransmit
deriving DecidableEq, Repr, Fintype

/-- The discriminant of each `Event` variant. -/
def Event.code : Event → Nat
  | .DataRepeat => 0x80
  | .DataReceived => 0x81
  | .Reset => 0x85
  | .Wakeup => 0x8F
  | .PacketTransmit => 0x90

/-- `Event::try_from_raw` (src/src/command.rs lines 176-186). -/
def Event.tryFromRaw (raw : Nat) : Option Event :=
  if raw = Event.DataRepeat.code then some .DataRepeat
  else if raw = Event.DataReceived.code then some .DataReceived
  else if raw = Event.Reset.code then some .Reset
  else if raw = Event.Wakeup.code then some .Wakeup
  else if raw = Event.PacketTransmit.code then some .PacketTransmit
  else none

/-- Send data error kind (src/src/command.rs lines 80-93). -/
inductive SendDataError where
  | AckTimeout
  | InvalidChannel
  | ChannelBusy
  | ModuleBusy
  | PayloadInvalid
  | Other : Nat → SendDataError
deriving DecidableEq, Repr

/-- `impl From<u8> for SendDataError` (src/src/command.rs lines 95-106).
Named `ofRaw` because `from` is a Lean keyword. -/
def SendDataError.ofRaw (value : Nat) : SendDataError :=
  if value = 0x01 then .AckTimeout
  else if value = 0x02 then .InvalidChannel
  else if value = 0x03 then .ChannelBusy
  else if value = 0x04 then .ModuleBusy
  else if value = 0xFF then .PayloadInvalid
  else .Other value

/-- `checksum` (src/src/command.rs lines 67-69): XOR-fold of all bytes. -/
def checksum (bytes : List Nat) : Nat :=
  bytes.foldl (fun acc x => acc ^^^ x) 0

/-- `command` (src/src/command.rs lines 52-65).  The caller's buffer is a
`List Nat`; the two `assert!` failures are modelled as `none`.  The slice
write `buf[3..(data.len() + 3)].copy_from_slice(data)` is the middle
append, and the two index writes are `List.set`.  Returns the updated
buffer and the frame length. -/
def command (buf : List Nat) (kind : Request) (data : List Nat) :
    Option (List Nat × Nat) :=
  if data.length > MAX_PAYLOAD_LEN then none
  else
    let len := HEADER_LEN + data.length + CHECKSUM_LEN
    if buf.length < len then none
    else
      let b1 := buf.set 0 START
      let b2 := b1.set 1 kind.code
      let b3 := b2.set 2 data.length
      let b4 := b3.take 3 ++ data ++ b3.drop (3 + data.length)
      let b5 := b4.set (len - 1) (checksum (b4.take (len - 1)))
      some (b5, len)

/-- Command/response frame (src/src/lib.rs lines 17-21): a decoded command
kind together with its payload bytes. -/
structure Frame (T : Type) where
  command : T
  data : List Nat
deriving DecidableEq, Repr

/-- Error kind (src/src/lib.rs lines 34-38). -/
inductive Error (S E : Type) where
  | Status : S → Error S E
  | Io : E → Error S E
deriving DecidableEq, Repr

/-- Ingest error (src/src/lib.rs lines 339-347). -/
inductive IngestError where
  | StartByte
  | PayloadLength
  | UnknownCommand
deriving DecidableEq, Repr

/-- Model of `heapless::spsc::Queue` together with `Producer::enqueue`, the
queue used for both channels (src/src/lib.rs lines 46-47 and 57-58).  Per
the heapless documentation a `Queue<T, N>` is a ring buffer that stores at
most `N - 1` elements; `enqueue` on a full queue fails, returning the
element to the caller (modelled as `none`, the queue unchanged). -/
def Queue.enqueue (N : Nat) (q : List α) (x : α) : Option (List α) :=
  if q.length < N - 1 then some (q ++ [x]) else none

/-- Model of `embedded_io_async::Read::read_exact` reading `n` bytes from
the serial stream.  The stream is a list of read outcomes: `some b` is a
byte delivered by the transport, `none` is a transport read that returned
an error (read_exact stops and propagates it; bytes before it have been
consumed).  Result `none` means the stream is exhausted, i.e. the real
read would suspend forever awaiting more input.  Otherwise the result is
the bytes obtained, whether the read succeeded in full, and the rest of
the stream. -/
def readExact : Nat → List (Option Nat) → Option (List Nat × Bool × List (Option Nat))
  | 0, s => some ([], true, s)
  | _ + 1, [] => none
  | _ + 1, none :: rest => some ([], false, rest)
  | n + 1, some b :: rest =>
    match readExact n rest with
    | none => none
    | some (bs, ok, rest2) => some (b :: bs, ok, rest2)

/-- Pad a partially filled read buffer to its declared size: positions the
failed `read_exact` did not reach keep their previous contents, which for
the freshly zeroed buffers of `ingest` are zero (for the payload `Vec`
these bytes are uninitialised memory, modelled as zero as well). -/
def padTo (n : Nat) (bs : List Nat) : List Nat :=
  bs ++ List.replicate (n - bs.length) 0

/-- Outcome of running the `Ingress::ingest` loop on a finite stream
prefix: `pending` means the loop has not returned (it is awaiting further
transport input, or the model's fuel ran out); `err` and `ok` are the
`Err`/`Ok` returns of the Rust function. -/
inductive IngestOutcome where
  | pending
  | err : IngestError → IngestOutcome
  | ok
deriving DecidableEq, Repr

/-- The two channel contents owned by the ingress producer halves
(src/src/lib.rs lines 282-283), oldest element first. -/
structure IngressState where
  response : List (Frame Response)
  event : List (Frame Event)
deriving DecidableEq, Repr

/-- `Ingress::ingest` (src/src/lib.rs lines 290-335), iterated with fuel.
Each iteration mirrors the source line by line:
  - `read_exact(&mut buf)` reads THREE bytes (start, command id, length)
    and its error is discarded with `.ok()`, so on a failed read the loop
    continues with the zero-padded buffer;
  - a wrong start byte `continue`s (discarding all three bytes read);
  - a declared length above `MAX_PAYLOAD_LEN` returns
    `Err(IngestError::PayloadLength)`;
  - the payload read errors are likewise discarded with `.ok()`;
  - the checksum step reads into `buf` — the 3-byte header buffer — not
    the declared 1-byte `_checksum`, so THREE bytes are consumed, and the
    `//todo: check checksum` comparison never happens;
  - the decoded frame is routed by `Event::try_from_raw` then
    `Response::try_from_raw`; `enqueue` failures are discarded with
    `.ok()` (frame dropped, queue unchanged). -/
def ingest : Nat → List (Option Nat) → IngressState → IngestOutcome × IngressState
  | 0, _, st => (.pending, st)
  | fuel + 1, s, st =>
    match readExact 3 s with
    | none => (.pending, st)
    | some (hdr, _, s1) =>
      let buf := padTo 3 hdr
      if buf.getD 0 0 ≠ START then
        ingest fuel s1 st
      else
        let cmd := buf.getD 1 0
        let len := buf.getD 2 0
        if len > MAX_PAYLOAD_LEN then
          (.err .PayloadLength, st)
        else
          match readExact len s1 with
          | none => (.pending, st)
          | some (pb, _, s2) =>
            let payload := padTo len pb
            match readExact 3 s2 with
            | none => (.pending, st)
            | some (_, _, s3) =>
              match Event.tryFromRaw cmd with
              | some ev =>
                ingest fuel s3
                  { st with
                    event := (Queue.enqueue 16 st.event ⟨ev, payload⟩).getD st.event }
              | none =>
                match Response.tryFromRaw cmd with
                | some r =>
                  ingest fuel s3
                    { st with
                      response := (Queue.enqueue 2 st.response ⟨r, payload⟩).getD st.response }
                | none => ingest fuel s3 st

/-- `core::task::Poll`. -/
inductive Poll (α : Type) where
  | Ready : α → Poll α
  | Pending
deriving DecidableEq, Repr

/-- One execution of the closure inside `Radio::poll_event`
(src/src/lib.rs lines 78-88): dequeue from the event queue; on an empty
queue the closure calls `cx.waker().wake_by_ref()` and returns
`Poll::Pending`.  The second component records whether `wake_by_ref` was
invoked on the task's own waker during this poll; the third is the queue
afterwards. -/
def Radio.poll_event (q : List (Frame Event)) :
    Poll (Frame Event) × Bool × List (Frame Event) :=
  match q with
  | [] => (.Pending, true, [])
  | f :: rest => (.Ready f, false, rest)

/-- One execution of the closure inside `Radio::poll_response`
(src/src/lib.rs lines 263-273), with the same reading as
`Radio.poll_event`. -/
def Radio.poll_response (q : List (Frame Response)) :
    Poll (Frame Response) × Bool × List (Frame Response) :=
  match q with
  | [] => (.Pending, true, [])
  | f :: rest => (.Ready f, false, rest)

/-
The command methods of `Radio` (src/src/lib.rs lines 93-260) all follow
the same shape: encode the request, write it to the serial port
(`map_err(Error::Io)?`), await `poll_response`, then read
`response.data[0]` and test it against the command-specific success
predicate.  Each model below takes the outcome of the serial write (the
`?` propagation) and the `Frame<Response>` eventually dequeued by
`poll_response`, and returns `none` exactly where the Rust method panics:
`response.data[0]` on an empty payload (and, for `send`, the failed
`assert!(data.len() <= 220)`).
-/

/-- `Radio::send` (src/src/lib.rs lines 93-108). -/
def Radio.send (E : Type) (data : List Nat) (write : Except E Unit)
    (resp : Frame Response) : Option (Except (Error SendDataError E) Unit) :=
  if data.length > 220 then none
  else
    match write with
    | .error e => some (.error (.Io e))
    | .ok _ =>
      match resp.data.head? with
      | none => none
      | some status =>
        some (if status = 0 then .ok () else .error (.Status (SendDataError.ofRaw status)))

/-- `Radio::reset` (src/src/lib.rs lines 113-126). -/
def Radio.reset (E : Type) (write : Except E Unit) (resp : Frame Response) :
    Option (Except (Error Unit E) Unit) :=
  match write with
  | .error e => some (.error (.Io e))
  | .ok _ =>
    match resp.data.head? with
    | none => none
    | some status => some (if status = 0 then .ok () else .error (.Status ()))

/-- `Radio::factory_reset` (src/src/lib.rs lines 129-142). -/
def Radio.factory_reset (E : Type) (write : Except E Unit) (resp : Frame Response) :
    Option (Except (Error Unit E) Unit) :=
  match write with
  | .error e => some (.error (.Io e))
  | .ok _ =>
    match resp.data.head? with
    | none => none
    | some status => some (if status = 0 then .ok () else .error (.Status ()))

/-- `Radio::standby` (src/src/lib.rs lines 147-160). -/
def Radio.standby (E : Type) (write : Except E Unit) (resp : Frame Response) :
    Option (Except (Error Unit E) Unit) :=
  match write with
  | .error e => some (.error (.Io e))
  | .ok _ =>
    match resp.data.head? with
    | none => none
    | some status => some (if status = 0 then .ok () else .error (.Status ()))

/-- `Radio::rssi` (src/src/lib.rs lines 163-172): returns the status byte
itself, unconditionally `Ok`. -/
def Radio.rssi (E : Type) (write : Except E Unit) (resp : Frame Response) :
    Option (Except (Error Unit E) Nat) :=
  match write with
  | .error e => some (.error (.Io e))
  | .ok _ =>
    match resp.data.head? with
    | none => none
    | some status => some (.ok status)

/-- `Radio::tx_power` (src/src/lib.rs lines 177-190): succeeds exactly
when the status byte echoes the requested power. -/
def Radio.tx_power (E : Type) (power : Nat) (write : Except E Unit)
    (resp : Frame Response) : Option (Except (Error Unit E) Unit) :=
  match write with
  | .error e => some (.error (.Io e))
  | .ok _ =>
    match resp.data.head? with
    | none => none
    | some status => some (if status = power then .ok () else .error (.Status ()))

/-- `Radio::channel` (src/src/lib.rs lines 193-206). -/
def Radio.channel (E : Type) (chan : Nat) (write : Except E Unit)
    (resp : Frame Response) : Option (Except (Error Unit E) Unit) :=
  match write with
  | .error e => some (.error (.Io e))
  | .ok _ =>
    match resp.data.head? with
    | none => none
    | some status => some (if status = chan then .ok () else .error (.Status ()))

/-- `Radio::destination_net` (src/src/lib.rs lines 209-222). -/
def Radio.destination_net (E : Type) (_id : Nat) (write : Except E Unit)
    (resp : Frame Response) : Option (Except (Error Unit E) Unit) :=
  match write with
  | .error e => some (.error (.Io e))
  | .ok _ =>
    match resp.data.head? with
    | none => none
    | some status => some (if status = 0x00 then .ok () else .error (.Status ()))

/-- `Radio::destination_address` (src/src/lib.rs lines 225-242). -/
def Radio.destination_address (E : Type) (_address : Nat) (write : Except E Unit)
    (resp : Frame Response) : Option (Except (Error Unit E) Unit) :=
  match write with
  | .error e => some (.error (.Io e))
  | .ok _ =>
    match resp.data.head? with
    | none => none
    | some status => some (if status = 0x00 then .ok () else .error (.Status ()))

/-- `Radio::mode` (src/src/lib.rs lines 247-260).  The `Mode` enum is
re-exported from the command module but its definition is not in the
sources; since the method only uses `mode as u8`, the mode is modelled
directly by that wire byte. -/
def Radio.mode (E : Type) (_modeCode : Nat) (write : Except E Unit)
    (resp : Frame Response) : Option (Except (Error Unit E) Unit) :=
  match write with
  | .error e => some (.error (.Io e))
  | .ok _ =>
    match resp.data.head? with
    | none => none
    | some status => some (if status = 0x00 then .ok () else .error (.Status ()))

/-! ## Theorems -/

/-- Above every response wire code the lookup yields no match. -/
lemma response_tryFromRaw_high (b : Nat) (h : 0x53 ≤ b) :
    Response.tryFromRaw b = none := by
  unfold Response.tryFromRaw
  simp only [Response.code]
  iterate 14 rw [if_neg (by omega)]

/-- Below 0x53 the response lookup matches exactly the wire codes. -/
lemma response_tryFromRaw_low :
    ∀ b < 0x53, ∀ v : Response, (Response.tryFromRaw b = some v ↔ b = v.code) := by
  decide

/-- Above every event wire code the lookup yields no match. -/
lemma event_tryFromRaw_high (b : Nat) (h : 0x91 ≤ b) :
    Event.tryFromRaw b = none := by
  unfold Event.tryFromRaw
  simp only [Event.code]
  iterate 5 rw [if_neg (by omega)]

/-- Below 0x91 the event lookup matches exactly the wire codes. -/
lemma event_tryFromRaw_low :
    ∀ b < 0x91, ∀ v : Event, (Event.tryFromRaw b = some v ↔ b = v.code) := by
  decide

/-- Claim C6: `Response::try_from_raw` and `Event::try_from_raw` are total
injective lookups: for every byte `b` the result is `some v` exactly when
`b` is variant `v`'s wire code and `none` for every other byte (never a
panic); every variant decodes from its own code, and no two distinct
variants share a code. -/
theorem try_from_raw_total_injective :
    (∀ b v, Response.tryFromRaw b = some v ↔ b = v.code) ∧
    (∀ b v, Event.tryFromRaw b = some v ↔ b = v.code) ∧
    (∀ v : Response, Response.tryFromRaw v.code = some v) ∧
    (∀ v : Event, Event.tryFromRaw v.code = some v) ∧
    (∀ v w : Response, v.code = w.code → v = w) ∧
    (∀ v w : Event, v.code = w.code → v = w) := by
  refine ⟨?_, ?_, by decide, by decide, by decide, by decide⟩
  · intro b v
    rcases Nat.lt_or_ge b 0x53 with hb | hb
    · exact response_tryFromRaw_low b hb v
    · rw [response_tryFromRaw_high b hb]
      constructor
      · intro h; exact absurd h (by simp)
      · intro h; exfalso; cases v <;> simp [Response.code] at h <;> omega
  · intro b v
    rcases Nat.lt_or_ge b 0x91 with hb | hb
    · exact event_tryFromRaw_low b hb v
    · rw [event_tryFromRaw_high b hb]
      constructor
      · intro h; exact absurd h (by simp)
      · intro h; exfalso; cases v <;> simp [Event.code] at h <;> omega

/-- Witness for C6: decoding the concrete byte 0x4D yields the Rssi
response variant. -/
theorem try_from_raw_total_injective_witness :
    Response.tryFromRaw 0x4D = some Response.Rssi :=
  (try_from_raw_total_injective.1 0x4D Response.Rssi).mpr (by decide)

/-- Setting the element at the index just past a prefix writes into the
head of the suffix. -/
lemma set_length_append (l r : List α) (v : α) :
    (l ++ r).set l.length v = l ++ r.set 0 v := by
  induction l with
  | nil => rfl
  | cons a as ih => simp [ih]

/-- Dropping `d + 3` elements of a triple-cons list. -/
lemma drop_three_cons (a b c : α) (l : List α) (d : Nat) :
    (a :: b :: c :: l).drop (d + 3) = l.drop d := rfl

/-- Taking `d + 3` elements of a triple-cons list. -/
lemma take_three_cons (a b c : α) (l : List α) (d : Nat) :
    (a :: b :: c :: l).take (d + 3) = a :: b :: c :: l.take d := rfl

/-- Setting index `d + 3` of a triple-cons list. -/
lemma set_three_cons (a b c : α) (l : List α) (d : Nat) (v : α) :
    (a :: b :: c :: l).set (d + 3) v = a :: b :: c :: l.set d v := rfl

/-- Dropping `d + 4` elements of a triple-cons list. -/
lemma drop_four_cons (a b c : α) (l : List α) (d : Nat) :
    (a :: b :: c :: l).drop (d + 4) = l.drop (d + 1) := rfl

/-- Claim C4: for every request kind and payload of length at most 224,
given a buffer of at least `4 + payload.len()` bytes, `command` writes
exactly the bytes 0x02, the request's wire code, the payload length, the
payload, then the XOR checksum of every preceding frame byte, leaves the
rest of the buffer untouched, and returns the length `4 + payload.len()`. -/
theorem command_encodes (kind : Request) (data buf : List Nat)
    (hdata : data.length ≤ MAX_PAYLOAD_LEN) (hbuf : 4 + data.length ≤ buf.length) :
    command buf kind data =
      some (([START, kind.code, data.length] ++ data ++
              [checksum ([START, kind.code, data.length] ++ data)]) ++
            buf.drop (4 + data.length),
            4 + data.length) := by
  rcases buf with _ | ⟨b0, buf⟩
  · simp at hbuf
  rcases buf with _ | ⟨b1, buf⟩
  · simp only [List.length_cons, List.length_nil] at hbuf; omega
  rcases buf with _ | ⟨b2, rest⟩
  · simp only [List.length_cons, List.length_nil] at hbuf; omega
  have hrest : data.length + 1 ≤ rest.length := by
    simp only [List.length_cons] at hbuf; omega
  obtain ⟨y, ys, hdrop⟩ : ∃ y ys, rest.drop data.length = y :: ys := by
    cases h : rest.drop data.length with
    | nil =>
      exfalso
      have hl := congrArg List.length h
      simp only [List.length_drop, List.length_nil] at hl
      omega
    | cons y ys => exact ⟨y, ys, rfl⟩
  have hys : rest.drop (data.length + 1) = ys := by
    rw [← List.tail_drop, hdrop]
    rfl
  simp only [command]
  rw [if_neg (by simp only [MAX_PAYLOAD_LEN] at hdata ⊢; omega)]
  rw [if_neg (by simp only [HEADER_LEN, CHECKSUM_LEN, List.length_cons]; omega)]
  simp only [HEADER_LEN, CHECKSUM_LEN, List.set_cons_zero, List.set_cons_succ,
    List.take_succ_cons, List.take_zero, List.cons_append, List.nil_append]
  rw [show 3 + data.length + 1 - 1 = data.length + 3 by omega,
    show 3 + data.length = data.length + 3 by omega,
    show 4 + data.length = data.length + 4 by omega]
  rw [drop_three_cons, hdrop, set_three_cons, take_three_cons, drop_four_cons, hys,
    List.take_left, set_length_append, List.set_cons_zero]
  simp only [Option.some.injEq, Prod.mk.injEq]
  refine ⟨by simp [List.append_assoc], by trivial⟩

/-- Witness for C4: encoding a Reset request with payload `[7]` into an
8-byte zero buffer produces the frame `02 05 01 07` followed by checksum
`0x01`, the remaining buffer untouched, with returned length 5. -/
theorem command_encodes_witness :
    command (List.replicate 8 0) Request.Reset [7] = some ([2, 5, 1, 7, 1, 0, 0, 0], 5) := by
  have h := command_encodes Request.Reset [7] (List.replicate 8 0) (by decide) (by decide)
  exact h.trans (by decide)

/-- Counterexample for claim C5: the claim asserts that a first and a
second push into the response channel both succeed before any dequeue.
In fact the first push succeeds but the second is dropped: the heapless
`Queue<Frame<Response>, 2>` stores at most `2 - 1 = 1` element, so with
one unconsumed frame stored, `enqueue` fails. -/
theorem response_second_push_dropped :
    Queue.enqueue 2 ([] : List (Frame Response)) ⟨Response.Reset, []⟩ =
      some [⟨Response.Reset, []⟩] ∧
    Queue.enqueue 2 [(⟨Response.Reset, []⟩ : Frame Response)] ⟨Response.Rssi, [1]⟩ =
      none := by
  constructor <;> rfl

/-- Claim C5 amended: the response channel stores at most ONE unconsumed
Response frame.  A push onto the empty channel succeeds; any push while a
frame remains unconsumed is dropped without panicking and without
blocking (`enqueue` merely returns `none`, and the ingress loop's
`.ok()` keeps the stored contents unchanged). -/
theorem response_queue_capacity_one :
    (∀ f : Frame Response, Queue.enqueue 2 [] f = some [f]) ∧
    (∀ (q : List (Frame Response)) (f : Frame Response), q ≠ [] →
      Queue.enqueue 2 q f = none ∧ (Queue.enqueue 2 q f).getD q = q) := by
  constructor
  · intro f; rfl
  · intro q f hq
    cases q with
    | nil => exact absurd rfl hq
    | cons a as => constructor <;> simp [Queue.enqueue, Nat.lt_one_iff]

/-- Witness for C5's amended theorem at a concrete stored frame. -/
theorem response_queue_capacity_one_witness :
    Queue.enqueue 2 [(⟨Response.Reset, []⟩ : Frame Response)] ⟨Response.SendData, []⟩ =
      none :=
  (response_queue_capacity_one.2 [⟨Response.Reset, []⟩] ⟨Response.SendData, []⟩
    (by simp)).1

/-- Counterexample for claim C8: the claim asserts that a poll on an
empty queue returns Pending WITHOUT re-waking its own task.  In fact both
poll closures call `cx.waker().wake_by_ref()` (recorded as `true`) before
returning Pending: the code busy-spins instead of registering for a
wake-on-push. -/
theorem poll_empty_self_wakes :
    Radio.poll_event ([] : List (Frame Event)) = (.Pending, true, []) ∧
    Radio.poll_response ([] : List (Frame Response)) = (.Pending, true, []) :=
  ⟨rfl, rfl⟩

/-- Claim C8 amended: on an empty queue, `poll_event` and `poll_response`
return Pending after unconditionally re-waking their own task (busy-spin
rescheduling, not wake-on-push); on a non-empty queue they return the
head frame without self-waking. -/
theorem poll_busy_spins :
    (Radio.poll_event ([] : List (Frame Event)) = (.Pending, true, [])) ∧
    (∀ f r, Radio.poll_event (f :: r) = (.Ready f, false, r)) ∧
    (Radio.poll_response ([] : List (Frame Response)) = (.Pending, true, [])) ∧
    (∀ f r, Radio.poll_response (f :: r) = (.Ready f, false, r)) :=
  ⟨rfl, fun _ _ => rfl, rfl, fun _ _ => rfl⟩

/-- Claim C7: assuming the serial write succeeds and the dequeued
response frame carries a non-empty payload, `tx_power(p)` returns `Ok(())`
exactly when the first payload byte equals `p`, and `Error::Status(())`
for any other status byte. -/
theorem tx_power_status (E : Type) (power : Nat) (resp : Frame Response)
    (h : resp.data ≠ []) :
    (Radio.tx_power E power (.ok ()) resp = some (.ok ()) ↔
      resp.data.getD 0 0 = power) ∧
    (resp.data.getD 0 0 ≠ power →
      Radio.tx_power E power (.ok ()) resp = some (.error (.Status ()))) := by
  cases hd : resp.data with
  | nil => exact absurd hd h
  | cons s rest =>
    constructor
    · by_cases hsp : s = power
      · simp [Radio.tx_power, hd, hsp]
      · simp [Radio.tx_power, hd, hsp]
    · intro hne
      simp only [List.getD_cons_zero] at hne
      simp [Radio.tx_power, hd, hne]

/-- Witness for C7: a TransmitPower response frame echoing the requested
power 50 makes `tx_power(50)` succeed. -/
theorem tx_power_status_witness :
    Radio.tx_power Unit 50 (.ok ()) ⟨Response.TransmitPower, [50]⟩ = some (.ok ()) :=
  (tx_power_status Unit 50 ⟨Response.TransmitPower, [50]⟩ (by simp)).1.mpr rfl

/-- Claim C10: every command method of Radio (send, reset, factory_reset,
standby, rssi, tx_power, channel, destination_net, destination_address,
mode) unconditionally indexes byte 0 of the dequeued response payload, so
on an empty payload every one of them panics (modelled `none`) — in
particular `rssi`, whose success predicate otherwise always succeeds. -/
theorem command_methods_panic_on_empty_payload (E : Type) (resp : Frame Response)
    (payload : List Nat) (power chan netId addr modeCode : Nat)
    (hp : payload.length ≤ 220) (h : resp.data = []) :
    Radio.send E payload (.ok ()) resp = none ∧
    Radio.reset E (.ok ()) resp = none ∧
    Radio.factory_reset E (.ok ()) resp = none ∧
    Radio.standby E (.ok ()) resp = none ∧
    Radio.rssi E (.ok ()) resp = none ∧
    Radio.tx_power E power (.ok ()) resp = none ∧
    Radio.channel E chan (.ok ()) resp = none ∧
    Radio.destination_net E netId (.ok ()) resp = none ∧
    Radio.destination_address E addr (.ok ()) resp = none ∧
    Radio.mode E modeCode (.ok ()) resp = none := by
  have hps : ¬ payload.length > 220 := by omega
  refine ⟨?_, ?_, ?_, ?_, ?_, ?_, ?_, ?_, ?_, ?_⟩ <;>
    simp [Radio.send, Radio.reset, Radio.factory_reset, Radio.standby, Radio.rssi,
      Radio.tx_power, Radio.channel, Radio.destination_net, Radio.destination_address,
      Radio.mode, h, hps]

/-- Witness for C10: `rssi` panics on an Rssi response with empty
payload. -/
theorem command_methods_panic_on_empty_payload_witness :
    Radio.rssi Unit (.ok ()) ⟨Response.Rssi, []⟩ = none :=
  (command_methods_panic_on_empty_payload Unit ⟨Response.Rssi, []⟩ [] 0 0 0 0 0
    (by decide) rfl).2.2.2.2.1

/-- Claim C1 evaluated at a failing input (code bug): the stream carries
the frame `02 45 00 FF` whose trailing checksum byte 0xFF differs from
0x47, the XOR of all preceding bytes.  The ingest loop never recomputes
or compares the checksum (the source's check is the `//todo` no-op), so
the corrupted frame is enqueued into the response channel instead of
being discarded.  (The two trailing zero bytes are consumed by the 3-byte
read at the checksum step; the outcome is still looping, awaiting input.) -/
theorem ingest_enqueues_frame_with_bad_checksum :
    checksum [0x02, 0x45, 0x00] = 0x47 ∧
    (0xFF : Nat) ≠ 0x47 ∧
    ingest 2 [some 0x02, some 0x45, some 0x00, some 0xFF, some 0x00, some 0x00]
        ⟨[], []⟩ =
      (.pending, ⟨[⟨Response.Reset, []⟩], []⟩) := by
  refine ⟨by decide, by decide, by decide⟩

/-- Claim C2 evaluated at a failing input (code bug): the stream is two
well-formed back-to-back frames `02 45 00 47 | 02 45 00 47`.  Per the
claim, one iteration consumes exactly `5 + len` bytes, so both frames
should be decoded and enqueued.  In fact the checksum step reads into the
3-byte header buffer instead of the declared 1-byte `_checksum`, consuming
`6 + len` bytes per frame: the first iteration swallows the second
frame's `02 45` and only ONE frame is ever enqueued. -/
theorem ingest_desyncs_after_checksum_read :
    ingest 8 (List.map some [0x02, 0x45, 0x00, 0x47, 0x02, 0x45, 0x00, 0x47])
        ⟨[], []⟩ =
      (.pending, ⟨[⟨Response.Reset, []⟩], []⟩) := by
  decide

/-- Counterexample for claim C3: the claim asserts that an unrecoverable
transport read error terminates `ingest` by being propagated to the
caller.  In fact every read result is discarded with `.ok()`: here the
first transport read errors (the leading `none`), yet ingest neither
returns nor propagates anything — it keeps looping, even decoding and
enqueueing the frame that follows the error. -/
theorem ingest_swallows_read_error :
    ingest 3 (none :: List.map some [0x02, 0x45, 0x00, 0x47, 0x00, 0x00]) ⟨[], []⟩ =
      (.pending, ⟨[⟨Response.Reset, []⟩], []⟩) := by
  decide

/-- Claim C3 amended: `Ingress::ingest` never returns `Ok`; the only way
it returns at all is `Err(IngestError::PayloadLength)` when a header
declares a payload length above 224.  Transport read errors are silently
discarded with `.ok()` and never terminate or surface; wrong start bytes,
checksum bytes and unknown command ids never cause a return either. -/
theorem ingest_never_returns_ok (fuel : Nat) (s : List (Option Nat))
    (st : IngressState) :
    (ingest fuel s st).1 = .pending ∨
    (ingest fuel s st).1 = .err .PayloadLength := by
  induction fuel generalizing s st with
  | zero => exact Or.inl rfl
  | succ fuel ih =>
    simp only [ingest]
    repeat' split
    all_goals first
      | exact Or.inl rfl
      | exact Or.inr rfl
      | apply ih

/-- `readExact` returns at most the requested number of bytes. -/
lemma readExact_length_le (n : Nat) (s : List (Option Nat)) (bs : List Nat)
    (ok : Bool) (rest : List (Option Nat))
    (h : readExact n s = some (bs, ok, rest)) : bs.length ≤ n := by
  induction n generalizing s bs ok rest with
  | zero =>
    simp only [readExact, Option.some.injEq, Prod.mk.injEq] at h
    rw [← h.1]
    simp
  | succ n ih =>
    cases s with
    | nil => simp [readExact] at h
    | cons o s1 =>
      cases o with
      | none =>
        simp only [readExact, Option.some.injEq, Prod.mk.injEq] at h
        rw [← h.1]
        simp
      | some b =>
        simp only [readExact] at h
        cases hr : readExact n s1 with
        | none => rw [hr] at h; simp at h
        | some v =>
          obtain ⟨bs2, ok2, rest2⟩ := v
          rw [hr] at h
          simp only [Option.some.injEq, Prod.mk.injEq] at h
          have hle := ih s1 bs2 ok2 rest2 hr
          rw [← h.1]
          simp only [List.length_cons]
          omega

/-- A buffer padded to its declared size has that size when the read
returned no more than requested. -/
lemma padTo_length (n : Nat) (bs : List Nat) (h : bs.length ≤ n) :
    (padTo n bs).length = n := by
  simp only [padTo, List.length_append, List.length_replicate]
  omega

/-- A member of the queue after an `enqueue(..).ok()` step is either an
old member or the pushed element. -/
lemma mem_enqueue_getD (N : Nat) (q : List α) (x f : α)
    (h : f ∈ (Queue.enqueue N q x).getD q) : f ∈ q ∨ f = x := by
  unfold Queue.enqueue at h
  split at h
  · simp only [Option.getD_some, List.mem_append, List.mem_singleton] at h
    exact h
  · simp only [Option.getD_none] at h
    exact Or.inl h

/-- Every frame in either channel after running the ingest loop has a
payload of at most `MAX_PAYLOAD_LEN` bytes, provided the initial channel
contents did. -/
lemma ingest_preserves_payload_bound (fuel : Nat) (s : List (Option Nat))
    (st : IngressState)
    (hr : ∀ f ∈ st.response, f.data.length ≤ MAX_PAYLOAD_LEN)
    (he : ∀ f ∈ st.event, f.data.length ≤ MAX_PAYLOAD_LEN) :
    (∀ f ∈ (ingest fuel s st).2.response, f.data.length ≤ MAX_PAYLOAD_LEN) ∧
    (∀ f ∈ (ingest fuel s st).2.event, f.data.length ≤ MAX_PAYLOAD_LEN) := by
  induction fuel generalizing s st with
  | zero => exact ⟨hr, he⟩
  | succ fuel ih =>
    simp only [ingest]
    split
    · exact ⟨hr, he⟩
    rename_i hdr hok s1 hhdr
    split
    · exact ih _ _ hr he
    rename_i hstart
    split
    · exact ⟨hr, he⟩
    rename_i hlen
    split
    · exact ⟨hr, he⟩
    rename_i pb pok s2 hpread
    split
    · exact ⟨hr, he⟩
    rename_i cb cok s3 hcread
    have hpay : (padTo ((padTo 3 hdr).getD 2 0) pb).length ≤ MAX_PAYLOAD_LEN := by
      rw [padTo_length _ _ (readExact_length_le _ _ _ _ _ hpread)]
      omega
    split
    · rename_i ev hev
      refine ih _ _ hr ?_
      intro f hf
      rcases mem_enqueue_getD _ _ _ _ hf with hmem | rfl
      · exact he f hmem
      · exact hpay
    · rename_i hev
      split
      · rename_i r hresp
        refine ih _ _ ?_ he
        intro f hf
        rcases mem_enqueue_getD _ _ _ _ hf with hmem | rfl
        · exact hr f hmem
        · exact hpay
      · exact ih _ _ hr he

/-- Claim C9: starting from empty channels, every frame ever enqueued by
the ingest loop has a payload of at most `MAX_PAYLOAD_LEN` (224) bytes;
and a header declaring a length above 224 aborts the loop with
`IngestError::PayloadLength` before any buffer is populated, leaving the
channel state unchanged. -/
theorem ingest_payload_length_invariant :
    (∀ fuel s, ∀ f ∈ (ingest fuel s ⟨[], []⟩).2.response,
      f.data.length ≤ MAX_PAYLOAD_LEN) ∧
    (∀ fuel s, ∀ f ∈ (ingest fuel s ⟨[], []⟩).2.event,
      f.data.length ≤ MAX_PAYLOAD_LEN) ∧
    (∀ fuel cmd len rest st, len > MAX_PAYLOAD_LEN →
      ingest (fuel + 1) (some START :: some cmd :: some len :: rest) st =
        (.err .PayloadLength, st)) := by
  refine ⟨?_, ?_, ?_⟩
  · intro fuel s
    exact (ingest_preserves_payload_bound fuel s ⟨[], []⟩ (by simp) (by simp)).1
  · intro fuel s
    exact (ingest_preserves_payload_bound fuel s ⟨[], []⟩ (by simp) (by simp)).2
  · intro fuel cmd len rest st hlen
    simp [ingest, readExact, padTo, hlen]

/-- Witness for C9: a frame decoded from a well-formed stream satisfies
the payload bound, and a header declaring length 0xFF = 255 makes ingest
return the PayloadLength error with the channels untouched. -/
theorem ingest_payload_length_invariant_witness :
    (⟨Response.Reset, []⟩ : Frame Response).data.length ≤ MAX_PAYLOAD_LEN ∧
    ingest (0 + 1) (some START :: some 0x45 :: some 0xFF :: []) ⟨[], []⟩ =
      (.err .PayloadLength, ⟨[], []⟩) := by
  constructor
  · exact ingest_payload_length_invariant.1 2
      [some 0x02, some 0x45, some 0x00, some 0x47, some 0x00, some 0x00]
      ⟨Response.Reset, []⟩ (by decide)
  · exact ingest_payload_length_invariant.2.2 0 0x45 0xFF [] ⟨[], []⟩ (by decide)

end Telesto
